import Mathlib

/-!
Verification of the snapshot-diff engine and diff-driven alert pipeline of the
stock_info repository.  The Python sources are shallowly embedded: dictionaries
become association lists over a scalar `Value` type, the two collector-base
variants (`src/collect/collector_base.py` and `src/alert/collector_base.py`)
become pure functions over explicit state records, and fallible operations
return `Except` / `Option`.  Logging is modelled as an explicit list of emitted
warning strings where a claim mentions it.
-/

namespace StockInfo

/-- Scalar values stored in snapshots and diffs (Python scalars). -/
inductive Value where
  | vStr (s : String)
  | vInt (n : Int)
  | vBool (b : Bool)
  | vNone
deriving DecidableEq

/-- A Python dict with string keys, embedded as an insertion-ordered
association list. -/
abbrev Record := List (String × Value)

/-- A changed key as produced by the differ: either a plain string or a list
of path parts (which the collectors join with a dot). -/
inductive DiffKey where
  | single (s : String)
  | path (parts : List String)
deriving DecidableEq

/-- Joining a list-shaped key with dots, as both collector variants do
(`'.'.join(str(part) for part in key)`). -/
def joinKey : DiffKey → String
  | .single s => s
  | .path parts => String.intercalate "." parts

/-- Python `list.index`, returning `none` where Python raises `ValueError`. -/
def listIndex (l : List Value) (v : Value) : Option Nat :=
  match l with
  | [] => none
  | x :: xs => if x = v then some 0 else (listIndex xs v).map (· + 1)

/-- The decorated diff dictionary produced by
`src/collect/collector_base.py` (`__decorate_diff`). -/
structure Diff where
  ticker : String
  date : String
  changed_key : String
  old : Value
  new : Value
  diff_type : String
  source : String
deriving DecidableEq

/-- A raw diff as returned by the Differ, before decoration. -/
structure RawDiff where
  changed_key : DiffKey
  old : Value
  new : Value
  diff_type : String
deriving DecidableEq

/-- The `hierarchy` property: a mapping from keys to their ordered rank list. -/
abbrev Hierarchy := List (String × List Value)

namespace Collect
namespace CollectorBase

/-- Embedding of `CollectorBase._edit_diff` from `src/collect/collector_base.py`.
Returns the (possibly deleted) diff together with the warnings logged.
Python evaluates `hierarchy[key].index(diff['new'])` first, so a `ValueError`
on either value short-circuits to the warning branch and the diff is passed
through unmodified. -/
def edit_diff (hier : Hierarchy) (ticker : String) (d : Diff) : Option Diff × List String :=
  if d.changed_key = "" then (none, [])
  else
    match hier.lookup d.changed_key with
    | some ranks =>
      match listIndex ranks d.new with
      | none => (some d, ["Incorrect hierarchy for " ++ ticker])
      | some ni =>
        match listIndex ranks d.old with
        | none => (some d, ["Incorrect hierarchy for " ++ ticker])
        | some oi => if ni < oi then (none, []) else (some d, [])
    | none => (some d, [])

/-- Embedding of `CollectorBase._edit_diffs`: apply `_edit_diff` to every diff
and keep those that are neither deleted nor have a `changed_key` in the
`filter_keys` denylist. -/
def edit_diffs (hier : Hierarchy) (fkeys : List String) (ticker : String) : List Diff → List Diff
  | [] => []
  | d :: rest =>
    match (edit_diff hier ticker d).1 with
    | none => edit_diffs hier fkeys ticker rest
    | some d2 =>
      if d2.changed_key ∈ fkeys then edit_diffs hier fkeys ticker rest
      else d2 :: edit_diffs hier fkeys ticker rest

/-- Embedding of `CollectorBase.__decorate_diff`: join list keys with dots and
stamp the ticker, date and source collection onto the raw diff. -/
def decorate_diff (ticker nm date : String) (d : RawDiff) : Diff :=
  { ticker := ticker, date := date, changed_key := joinKey d.changed_key,
    old := d.old, new := d.new, diff_type := d.diff_type, source := nm }

/-- The in-memory state of a `src/collect/collector_base.py` collector:
ticker and collection name, the capture date, the latest stored snapshot
(None when the entity has no history) and the currently fetched data
(None until `collect()` ran). -/
structure CollectorState where
  ticker : String
  nm : String
  date : String
  latest : Option Record
  currentData : Option Record

/-- Embedding of `CollectorBase.get_diffs` from `src/collect/collector_base.py`.
The Differ call is abstracted as a fallible function argument (its module is a
separate file); `.error` models the `raise` on a missing `collect()` call and
the `.ok none` result models the implicit `return None` of the `except`
branch, which logs and discards everything computed inside the `try`. -/
def get_diffs (s : CollectorState) (hier : Hierarchy) (fkeys : List String)
    (differ : Record → Record → Except String (List RawDiff)) :
    Except String (Option (List Diff)) :=
  match s.currentData with
  | none => .error "You should use collect() before using get_diffs()"
  | some current =>
    match s.latest with
    | none => .ok (some [])
    | some latest =>
      match differ latest current with
      | .ok raw =>
        .ok (some (edit_diffs hier fkeys s.ticker (raw.map (decorate_diff s.ticker s.nm s.date))))
      | .error _ => .ok none

end CollectorBase
end Collect

namespace Alert
namespace CollectorBase

/-- One entry of the `dictdiffer.diff` output consumed by
`src/alert/collector_base.py`: a change carries the old and new value, while
add/remove carry a list of (position, value) pairs of which the code reads
the first pair's value. -/
inductive DDEntry where
  | change (key : DiffKey) (old : Value) (new : Value)
  | add (key : DiffKey) (items : List (Value × Value))
  | remove (key : DiffKey) (items : List (Value × Value))
deriving DecidableEq

/-- Embedding of `CollectorBase.__build_diff` from `src/alert/collector_base.py`:
the diff dictionary it constructs, with list keys joined by dots. -/
def build_diff (ticker date : String) (old new : Value) (key : DiffKey)
    (diff_type : String) : Record :=
  [("ticker", Value.vStr ticker), ("date", Value.vStr date),
   ("changed_key", Value.vStr (joinKey key)), ("old", old), ("new", new),
   ("diff_type", Value.vStr diff_type)]

/-- Embedding of `CollectorBase.__parse_diffs`: turn dictdiffer entries into
diff dictionaries; reading `values[0][1]` of an empty add/remove list is a
Python `IndexError`, modelled as `.error`. -/
def parse_diffs (ticker date : String) : List DDEntry → Except String (List Record)
  | [] => .ok []
  | e :: rest =>
    match
      (match e with
       | .change key o n => Except.ok (build_diff ticker date o n key "change")
       | .remove key items =>
         match items.head? with
         | some it => Except.ok (build_diff ticker date it.2 Value.vNone key "remove")
         | none => Except.error "IndexError"
       | .add key items =>
         match items.head? with
         | some it => Except.ok (build_diff ticker date Value.vNone it.2 key "add")
         | none => Except.error "IndexError") with
    | .error e2 => .error e2
    | .ok d =>
      match parse_diffs ticker date rest with
      | .error e2 => .error e2
      | .ok ds => .ok (d :: ds)

/-- The in-memory state of a `src/alert/collector_base.py` collector,
including the mongo collection contents (`records`) it appends to and the
log lines written in debug mode. -/
structure AlertCollectorState where
  ticker : String
  nm : String
  date : String
  latest : Option Record
  currentData : Option Record
  debug : Bool
  records : List Record
  logs : List String

/-- Python `dict.update` for a single key: replace the value in place if the
key exists, otherwise append the pair. -/
def dictInsert (r : Record) (k : String) (v : Value) : Record :=
  if (r.lookup k).isSome then r.map (fun p => if p.1 = k then (k, v) else p)
  else r ++ [(k, v)]

/-- Embedding of `CollectorBase.collect` from `src/alert/collector_base.py`:
store the fetched data, build the entry augmented with ticker and date, and
insert it into the collection — unless debug mode is on, in which case the
entry is only logged. -/
def collect (s : AlertCollectorState) (fetched : Record) : AlertCollectorState :=
  let entry := dictInsert (dictInsert fetched "ticker" (Value.vStr s.ticker)) "date"
    (Value.vStr s.date)
  if s.debug then
    { s with currentData := some fetched, logs := s.logs ++ ["collection.insert_one"] }
  else
    { s with currentData := some fetched, records := s.records ++ [entry] }

/-- Embedding of `CollectorBase.get_diffs` from `src/alert/collector_base.py`:
raise without a prior `collect()`, return `[]` without history, otherwise diff,
parse and filter through the abstract `_filter_diff` predicate.  This variant
has no try/except, so differ failures propagate. -/
def get_diffs (s : AlertCollectorState)
    (differ : Record → Record → Except String (List DDEntry))
    (filterDiff : Record → Bool) : Except String (List Record) :=
  match s.currentData with
  | none => .error "You should use collect() before using get_changes()"
  | some current =>
    match s.latest with
    | none => .ok []
    | some latest =>
      match differ latest current with
      | .error e => .error e
      | .ok entries =>
        match parse_diffs s.ticker s.date entries with
        | .error e => .error e
        | .ok parsed => .ok (parsed.filter filterDiff)

end CollectorBase
end Alert

/-- Claim C1: for a diff whose `changed_key` has a configured hierarchy rank
list, `_edit_diff` suppresses the diff (returns none) when both values appear
in the list and the new value's index is strictly lower than the old value's
index; returns the diff unchanged when both appear and the new index is
greater than or equal to the old index; and when either value is absent from
the list it logs a warning and passes the diff through unmodified. -/
theorem hierarchy_edit_diff_cases (hier : Hierarchy) (t : String) (d : Diff)
    (ranks : List Value) (hk : d.changed_key ≠ "")
    (hh : hier.lookup d.changed_key = some ranks) :
    (∀ ni oi, listIndex ranks d.new = some ni → listIndex ranks d.old = some oi →
      (ni < oi → Collect.CollectorBase.edit_diff hier t d = (none, [])) ∧
      (oi ≤ ni → Collect.CollectorBase.edit_diff hier t d = (some d, []))) ∧
    ((listIndex ranks d.new = none ∨ listIndex ranks d.old = none) →
      Collect.CollectorBase.edit_diff hier t d =
        (some d, ["Incorrect hierarchy for " ++ t])) := by
  unfold Collect.CollectorBase.edit_diff
  rw [if_neg hk]
  refine ⟨?_, ?_⟩
  · intro ni oi hn ho
    refine ⟨fun hlt => ?_, fun hle => ?_⟩
    · simp [hh, hn, ho, hlt]
    · simp [hh, hn, ho, Nat.not_lt.mpr hle]
  · rintro (h | h)
    · simp [hh, h]
    · cases hn : listIndex ranks d.new with
      | none => simp [hh, hn]
      | some ni => simp [hh, hn, h]

/-- The example rank list `[C, B, A]` from the hierarchy-suppression example. -/
def tierRanks : List Value := [Value.vStr "C", Value.vStr "B", Value.vStr "A"]

/-- A diff moving the tier from A down to B (a regression in the rank list). -/
def tierDowngradeDiff : Diff :=
  { ticker := "T", date := "1", changed_key := "tier", old := Value.vStr "A",
    new := Value.vStr "B", diff_type := "change", source := "s" }

/-- A diff moving the tier from B up to A (a progression in the rank list). -/
def tierUpgradeDiff : Diff :=
  { ticker := "T", date := "1", changed_key := "tier", old := Value.vStr "B",
    new := Value.vStr "A", diff_type := "change", source := "s" }

/-- Witness for C1: with hierarchy `tier -> [C, B, A]`, a diff changing the
tier from A to B is dropped, while a diff changing it from B to A passes
through unchanged. -/
theorem hierarchy_edit_diff_cases_witness :
    Collect.CollectorBase.edit_diff [("tier", tierRanks)] "T" tierDowngradeDiff = (none, []) ∧
    Collect.CollectorBase.edit_diff [("tier", tierRanks)] "T" tierUpgradeDiff =
      (some tierUpgradeDiff, []) := by
  constructor
  · exact ((hierarchy_edit_diff_cases _ "T" _ tierRanks (by decide) (by decide)).1
      1 2 (by decide) (by decide)).1 (by decide)
  · exact ((hierarchy_edit_diff_cases _ "T" _ tierRanks (by decide) (by decide)).1
      2 1 (by decide) (by decide)).2 (by decide)

/-- Claim C2: in both collector-base variants, when current data has been
fetched but no prior snapshot exists for the entity (`latest` is None),
`get_diffs` returns the empty sequence — the first observation is a baseline
and produces no diffs. -/
theorem get_diffs_no_history_empty :
    (∀ (s : Collect.CollectorBase.CollectorState) (hier : Hierarchy) (fkeys : List String)
       (differ : Record → Record → Except String (List RawDiff)) (c : Record),
       s.currentData = some c → s.latest = none →
       Collect.CollectorBase.get_diffs s hier fkeys differ = .ok (some [])) ∧
    (∀ (s : Alert.CollectorBase.AlertCollectorState)
       (differ : Record → Record → Except String (List Alert.CollectorBase.DDEntry))
       (filt : Record → Bool) (c : Record),
       s.currentData = some c → s.latest = none →
       Alert.CollectorBase.get_diffs s differ filt = .ok []) := by
  constructor
  · intro s hier fkeys differ c hc hl
    unfold Collect.CollectorBase.get_diffs
    rw [hc, hl]
  · intro s differ filt c hc hl
    unfold Alert.CollectorBase.get_diffs
    rw [hc, hl]

/-- A collect-variant collector that fetched data but has no stored history. -/
def baselineState : Collect.CollectorBase.CollectorState :=
  { ticker := "ABC", nm := "securities", date := "1", latest := none,
    currentData := some [("x", Value.vInt 1)] }

/-- An alert-variant collector that fetched data but has no stored history. -/
def baselineAlertState : Alert.CollectorBase.AlertCollectorState :=
  { ticker := "ABC", nm := "symbols", date := "1", latest := none,
    currentData := some [("x", Value.vInt 1)], debug := false, records := [], logs := [] }

/-- Witness for C2: concrete collectors with fetched data and no history
yield the empty diff list in both variants. -/
theorem get_diffs_no_history_empty_witness :
    Collect.CollectorBase.get_diffs baselineState [] [] (fun _ _ => .ok []) = .ok (some []) ∧
    Alert.CollectorBase.get_diffs baselineAlertState (fun _ _ => .ok []) (fun _ => true) =
      .ok [] :=
  ⟨get_diffs_no_history_empty.1 baselineState [] [] _ [("x", Value.vInt 1)] rfl rfl,
   get_diffs_no_history_empty.2 baselineAlertState _ _ [("x", Value.vInt 1)] rfl rfl⟩

/-- Claim C10: in both collector-base variants, calling `get_diffs` before
`collect()` has run (current data still unset) raises an exception instead of
returning a value: `collect()` is a precondition of `get_diffs`. -/
theorem get_diffs_requires_collect :
    (∀ (s : Collect.CollectorBase.CollectorState) (hier : Hierarchy) (fkeys : List String)
       (differ : Record → Record → Except String (List RawDiff)),
       s.currentData = none →
       Collect.CollectorBase.get_diffs s hier fkeys differ =
         .error "You should use collect() before using get_diffs()") ∧
    (∀ (s : Alert.CollectorBase.AlertCollectorState)
       (differ : Record → Record → Except String (List Alert.CollectorBase.DDEntry))
       (filt : Record → Bool),
       s.currentData = none →
       Alert.CollectorBase.get_diffs s differ filt =
         .error "You should use collect() before using get_changes()") := by
  constructor
  · intro s hier fkeys differ hc
    unfold Collect.CollectorBase.get_diffs
    rw [hc]
  · intro s differ filt hc
    unfold Alert.CollectorBase.get_diffs
    rw [hc]

/-- A collect-variant collector on which `collect()` has not yet run. -/
def unfetchedState : Collect.CollectorBase.CollectorState :=
  { ticker := "ABC", nm := "securities", date := "1",
    latest := some [("x", Value.vInt 1)], currentData := none }

/-- An alert-variant collector on which `collect()` has not yet run. -/
def unfetchedAlertState : Alert.CollectorBase.AlertCollectorState :=
  { ticker := "ABC", nm := "symbols", date := "1", latest := some [("x", Value.vInt 1)],
    currentData := none, debug := false, records := [], logs := [] }

/-- Witness for C10: concrete collectors without fetched data raise in both
variants. -/
theorem get_diffs_requires_collect_witness :
    Collect.CollectorBase.get_diffs unfetchedState [] [] (fun _ _ => .ok []) =
      .error "You should use collect() before using get_diffs()" ∧
    Alert.CollectorBase.get_diffs unfetchedAlertState (fun _ _ => .ok []) (fun _ => true) =
      .error "You should use collect() before using get_changes()" :=
  ⟨get_diffs_requires_collect.1 unfetchedState [] [] _ rfl,
   get_diffs_requires_collect.2 unfetchedAlertState _ _ rfl⟩

/-- A collect-variant collector with both a stored snapshot and fetched data,
used to exercise the comparison-failure path. -/
def comparisonState : Collect.CollectorBase.CollectorState :=
  { ticker := "ABC", nm := "securities", date := "1",
    latest := some [("x", Value.vInt 1)], currentData := some [("x", Value.vStr "a")] }

/-- Counterexample to C4 as stated: with a concrete state and a differ whose
comparison fails, `get_diffs` returns None — not the (empty) sequence of
diffs computed before the failure. -/
theorem get_diffs_differ_failure_cex :
    Collect.CollectorBase.get_diffs comparisonState [] []
      (fun _ _ => .error "type mismatch") = .ok none ∧
    Collect.CollectorBase.get_diffs comparisonState [] []
      (fun _ _ => .error "type mismatch") ≠ .ok (some []) := by
  refine ⟨rfl, ?_⟩
  intro h
  simp [Collect.CollectorBase.get_diffs, comparisonState] at h

/-- Claim C4 (as amended): when the structural comparison fails, the failure
is caught and logged and `get_diffs` returns None — any diffs computed before
the failure are discarded, and no partially-constructed diff is ever
returned. -/
theorem get_diffs_differ_failure_none
    (s : Collect.CollectorBase.CollectorState) (hier : Hierarchy) (fkeys : List String)
    (differ : Record → Record → Except String (List RawDiff))
    (latest current : Record) (e : String)
    (hl : s.latest = some latest) (hc : s.currentData = some current)
    (hd : differ latest current = .error e) :
    Collect.CollectorBase.get_diffs s hier fkeys differ = .ok none := by
  unfold Collect.CollectorBase.get_diffs
  simp only [hc, hl, hd]

/-- Witness for C4 (amended): a concrete collector state whose differ fails
yields None from `get_diffs`. -/
theorem get_diffs_differ_failure_none_witness :
    Collect.CollectorBase.get_diffs comparisonState [] []
      (fun _ _ => .error "unorderable types") = .ok none :=
  get_diffs_differ_failure_none comparisonState [] [] _ [("x", Value.vInt 1)]
    [("x", Value.vStr "a")] "unorderable types" rfl rfl rfl

/-- An alert-variant collector in debug mode. -/
def debugAlertState : Alert.CollectorBase.AlertCollectorState :=
  { ticker := "ABC", nm := "symbols", date := "1", latest := none, currentData := none,
    debug := true, records := [], logs := [] }

/-- Counterexample to C3 as stated: in debug mode, `collect()` appends nothing
to the collection — the snapshot append count for the call is zero, not
exactly one. -/
theorem collect_debug_no_append_cex :
    (Alert.CollectorBase.collect debugAlertState [("x", Value.vInt 1)]).records = [] := rfl

/-- Claim C3 (as amended): whenever debug mode is off, `collect()` appends the
fetched snapshot, augmented with the ticker and the capture date, to the
collection exactly once per call — independently of any diff computation,
which happens only later in `get_diffs`; with debug mode on the append is
skipped and the entry is only logged. -/
theorem collect_appends_snapshot (s : Alert.CollectorBase.AlertCollectorState)
    (fetched : Record) :
    (s.debug = false →
      (Alert.CollectorBase.collect s fetched).records =
        s.records ++ [Alert.CollectorBase.dictInsert
          (Alert.CollectorBase.dictInsert fetched "ticker" (Value.vStr s.ticker)) "date"
          (Value.vStr s.date)]) ∧
    (s.debug = true →
      (Alert.CollectorBase.collect s fetched).records = s.records ∧
      (Alert.CollectorBase.collect s fetched).logs = s.logs ++ ["collection.insert_one"]) := by
  constructor
  · intro hd
    simp [Alert.CollectorBase.collect, hd]
  · intro hd
    constructor <;> simp [Alert.CollectorBase.collect, hd]

/-- Witness for C3 (amended): a concrete non-debug collector appends exactly
the augmented entry; a concrete debug collector appends nothing. -/
theorem collect_appends_snapshot_witness :
    (Alert.CollectorBase.collect baselineAlertState [("x", Value.vInt 1)]).records =
      [[("x", Value.vInt 1), ("ticker", Value.vStr "ABC"), ("date", Value.vStr "1")]] ∧
    (Alert.CollectorBase.collect debugAlertState [("x", Value.vInt 1)]).records = [] := by
  constructor
  · exact ((collect_appends_snapshot baselineAlertState [("x", Value.vInt 1)]).1 rfl).trans rfl
  · exact ((collect_appends_snapshot debugAlertState [("x", Value.vInt 1)]).2 rfl).1

/-- Counterexample to C8 as stated: a concretely built diff dictionary — the
exact shape the alert pipeline appends to the diffs collection — has no
`delivered` key at all, so no delivered flag starting at false exists. -/
theorem build_diff_no_delivered_cex :
    (Alert.CollectorBase.build_diff "ABC" "2021-01-01" (Value.vStr "PN") (Value.vStr "QB")
      (DiffKey.single "tierCode") "change").lookup "delivered" = none := rfl

/-- Claim C8 (as amended): every diff dictionary built by `__build_diff` — and
therefore every diff appended to the diffs collection by the alert pipeline —
has exactly the keys ticker, date, changed_key, old, new and diff_type; in
particular it carries no `delivered` flag, and no operation of this pipeline
sets or clears such a flag (alerts are dispatched immediately in the same
cycle, right after insertion). -/
theorem build_diff_keys (ticker date : String) (o n : Value) (key : DiffKey) (dt : String) :
    (Alert.CollectorBase.build_diff ticker date o n key dt).map Prod.fst =
      ["ticker", "date", "changed_key", "old", "new", "diff_type"] ∧
    (Alert.CollectorBase.build_diff ticker date o n key dt).lookup "delivered" = none :=
  ⟨rfl, rfl⟩

/-- Outcome of one attempted telegram send: success, or the `BadRequest`
error raised for an invalid chat id, which `__telegram_alert` catches. -/
inductive SendOutcome where
  | sendOk
  | badRequest
deriving DecidableEq

namespace Alert

/-- Embedding of `Alert.__telegram_alert` (`alert.py`): iterate over all
registered users (pairs of user name and chat id), send the message to each,
and log a warning instead of failing when a send raises `BadRequest`.
Returns the chat ids successfully sent to and the warnings logged. -/
def telegram_alert (users : List (String × Int)) (send : Int → SendOutcome) :
    List Int × List String :=
  match users with
  | [] => ([], [])
  | (uname, chat) :: rest =>
    let tail := telegram_alert rest send
    match send chat with
    | .sendOk => (chat :: tail.1, tail.2)
    | .badRequest => (tail.1, ("Cant alert to " ++ uname ++ " - invalid chat id") :: tail.2)

end Alert

/-- Claim C9: a `BadRequest` send failure for one registered user is logged
and does not prevent the same message from reaching every other user: the
successfully-sent list is exactly the users whose send succeeds, and each
failing user produces exactly its warning line, in order. -/
theorem telegram_alert_sends_all (users : List (String × Int)) (send : Int → SendOutcome) :
    (Alert.telegram_alert users send).1 =
      (users.filter (fun u => send u.2 == SendOutcome.sendOk)).map Prod.snd ∧
    (Alert.telegram_alert users send).2 =
      (users.filter (fun u => send u.2 == SendOutcome.badRequest)).map
        (fun u => "Cant alert to " ++ u.1 ++ " - invalid chat id") := by
  induction users with
  | nil => exact ⟨rfl, rfl⟩
  | cons u rest ih =>
    obtain ⟨uname, chat⟩ := u
    rcases hs : send chat with _ | _ <;>
      simp [Alert.telegram_alert, hs, List.filter_cons, ih.1, ih.2]

/-- Outcome of processing one ticker inside `Alert.collect`: success with the
computed diffs, a suspected invalid ticker, a mongo `OperationFailure`, or
any other exception. -/
inductive TickerOutcome where
  | ok (diffs : List Diff)
  | invalidTicker
  | opFailure (msg : String)
  | otherError (msg : String)
deriving DecidableEq

/-- Whether an outcome is the mongo `OperationFailure` case. -/
def TickerOutcome.isOpFailure : TickerOutcome → Bool
  | .opFailure _ => true
  | _ => false

/-- State threaded through one `Alert.collect` cycle: the diffs inserted into
the diffs collection, the diffs alerted to users, and the warnings logged. -/
structure CycleState where
  insertedDiffs : List Diff
  alerted : List Diff
  warnings : List String
deriving DecidableEq

namespace Alert

/-- Embedding of the per-ticker loop of `Alert.collect` (`alert.py`): a
successful ticker with non-empty diffs commits them (insert, then alert); an
`InvalidTickerExcpetion` or any other exception is logged as a warning and
the loop continues; a mongo `OperationFailure` is re-raised and aborts the
whole loop. -/
def collectTickers : List (String × TickerOutcome) → CycleState → Except String CycleState
  | [], st => .ok st
  | (t, o) :: rest, st =>
    match o with
    | .ok diffs =>
      if diffs.isEmpty then collectTickers rest st
      else collectTickers rest
        { st with insertedDiffs := st.insertedDiffs ++ diffs, alerted := st.alerted ++ diffs }
    | .invalidTicker =>
      collectTickers rest
        { st with warnings := st.warnings ++ ["Suspecting invalid ticker " ++ t] }
    | .opFailure m =>
      .error ("Mongo connectivity problems, check your credentials. error: " ++ m)
    | .otherError m =>
      collectTickers rest
        { st with warnings := st.warnings ++ ["Exception on " ++ t ++ ": " ++ m] }

end Alert

/-- Diffs contributed by one processed ticker. -/
def itemDiffs : String × TickerOutcome → List Diff
  | (_, .ok ds) => ds
  | _ => []

/-- Warnings logged for one processed ticker. -/
def itemWarnings : String × TickerOutcome → List String
  | (t, .invalidTicker) => ["Suspecting invalid ticker " ++ t]
  | (t, .otherError m) => ["Exception on " ++ t ++ ": " ++ m]
  | _ => []

/-- Claim C7: per-ticker failures (invalid ticker, other exceptions) are
logged and do not abort the cycle — every ticker of the work list is still
processed and every successful ticker's diffs are inserted — while a mongo
`OperationFailure` (store connectivity failure) escalates: it aborts the loop
with an error. -/
theorem collect_cycle_fault_isolation :
    (∀ (items : List (String × TickerOutcome)) (st : CycleState),
      (∀ p ∈ items, p.2.isOpFailure = false) →
      ∃ st2, Alert.collectTickers items st = .ok st2 ∧
        st2.insertedDiffs = st.insertedDiffs ++ (items.map itemDiffs).flatten ∧
        st2.warnings = st.warnings ++ (items.map itemWarnings).flatten) ∧
    (∀ (pre : List (String × TickerOutcome)) (t m : String)
       (post : List (String × TickerOutcome)) (st : CycleState),
      (∀ p ∈ pre, p.2.isOpFailure = false) →
      Alert.collectTickers (pre ++ (t, TickerOutcome.opFailure m) :: post) st =
        .error ("Mongo connectivity problems, check your credentials. error: " ++ m)) := by
  constructor
  · intro items
    induction items with
    | nil =>
      intro st _
      exact ⟨st, rfl, by simp, by simp⟩
    | cons p rest ih =>
      intro st hno
      obtain ⟨t, o⟩ := p
      have hrest : ∀ q ∈ rest, q.2.isOpFailure = false := fun q hq => hno q (by simp [hq])
      cases o with
      | ok diffs =>
        by_cases hempty : diffs.isEmpty
        · obtain ⟨st2, h1, h2, h3⟩ := ih st hrest
          refine ⟨st2, ?_, ?_, ?_⟩
          · simpa [Alert.collectTickers, hempty] using h1
          · simp [h2, itemDiffs, List.isEmpty_iff.mp hempty]
          · simp [h3, itemWarnings]
        · obtain ⟨st2, h1, h2, h3⟩ :=
            ih { st with insertedDiffs := st.insertedDiffs ++ diffs,
                         alerted := st.alerted ++ diffs } hrest
          refine ⟨st2, ?_, ?_, ?_⟩
          · simpa [Alert.collectTickers, hempty] using h1
          · simp [h2, itemDiffs, List.append_assoc]
          · simp [h3, itemWarnings]
      | invalidTicker =>
        obtain ⟨st2, h1, h2, h3⟩ :=
          ih { st with warnings := st.warnings ++ ["Suspecting invalid ticker " ++ t] } hrest
        refine ⟨st2, ?_, ?_, ?_⟩
        · simpa [Alert.collectTickers] using h1
        · simp [h2, itemDiffs]
        · simp [h3, itemWarnings, List.append_assoc]
      | opFailure m =>
        have := hno (t, TickerOutcome.opFailure m) (by simp)
        simp [TickerOutcome.isOpFailure] at this
      | otherError m =>
        obtain ⟨st2, h1, h2, h3⟩ :=
          ih { st with warnings := st.warnings ++ ["Exception on " ++ t ++ ": " ++ m] } hrest
        refine ⟨st2, ?_, ?_, ?_⟩
        · simpa [Alert.collectTickers] using h1
        · simp [h2, itemDiffs]
        · simp [h3, itemWarnings, List.append_assoc]
  · intro pre
    induction pre with
    | nil =>
      intro t m post st _
      simp [Alert.collectTickers]
    | cons p rest ih =>
      intro t m post st hno
      obtain ⟨t0, o0⟩ := p
      have hrest : ∀ q ∈ rest, q.2.isOpFailure = false := fun q hq => hno q (by simp [hq])
      have h0 : o0.isOpFailure = false := hno (t0, o0) (by simp)
      cases o0 with
      | ok diffs =>
        by_cases hempty : diffs.isEmpty <;>
          simpa [Alert.collectTickers, hempty] using ih t m post _ hrest
      | invalidTicker =>
        simpa [Alert.collectTickers] using ih t m post _ hrest
      | opFailure m0 =>
        simp [TickerOutcome.isOpFailure] at h0
      | otherError m0 =>
        simpa [Alert.collectTickers] using ih t m post _ hrest

/-- A concrete work list with one invalid-ticker failure followed by a
successful ticker carrying one diff. -/
def demoItems : List (String × TickerOutcome) :=
  [("AAA", TickerOutcome.invalidTicker), ("BBB", TickerOutcome.ok [tierUpgradeDiff])]

/-- Witness for C7: on the concrete work list, the cycle completes and the
later ticker's diff is inserted despite the earlier failure; appending a
mongo `OperationFailure` work item aborts the cycle with the escalated
error. -/
theorem collect_cycle_fault_isolation_witness :
    (∃ st2, Alert.collectTickers demoItems ⟨[], [], []⟩ = .ok st2 ∧
      st2.insertedDiffs = [] ++ (demoItems.map itemDiffs).flatten ∧
      st2.warnings = [] ++ (demoItems.map itemWarnings).flatten) ∧
    Alert.collectTickers (demoItems ++ ("CCC", TickerOutcome.opFailure "down") :: [])
        ⟨[], [], []⟩ =
      .error ("Mongo connectivity problems, check your credentials. error: " ++ "down") :=
  ⟨collect_cycle_fault_isolation.1 demoItems ⟨[], [], []⟩ (by decide),
   collect_cycle_fault_isolation.2 demoItems "CCC" "down" [] ⟨[], [], []⟩ (by decide)⟩

/-- Helper: whenever `_edit_diff` keeps a diff, it is the input diff
unchanged and its `changed_key` is non-empty. -/
theorem edit_diff_first_some (hier : Hierarchy) (t : String) (d d2 : Diff)
    (h : (Collect.CollectorBase.edit_diff hier t d).1 = some d2) :
    d2 = d ∧ d.changed_key ≠ "" := by
  unfold Collect.CollectorBase.edit_diff at h
  by_cases hk : d.changed_key = ""
  · rw [if_pos hk] at h
    simp at h
  · rw [if_neg hk] at h
    refine ⟨?_, hk⟩
    repeat' split at h
    all_goals simp_all

/-- Claim C6: a diff that survives the `_edit_diffs` filter pipeline never has
an empty `changed_key` and never has a `changed_key` belonging to the
`filter_keys` denylist — such diffs are dropped and never reach the diffs
collection. -/
theorem edit_diffs_denylist (hier : Hierarchy) (fkeys : List String) (t : String)
    (diffs : List Diff) (d : Diff)
    (hmem : d ∈ Collect.CollectorBase.edit_diffs hier fkeys t diffs) :
    d.changed_key ≠ "" ∧ d.changed_key ∉ fkeys := by
  induction diffs with
  | nil => simp [Collect.CollectorBase.edit_diffs] at hmem
  | cons d0 rest ih =>
    rw [Collect.CollectorBase.edit_diffs] at hmem
    rcases hs : (Collect.CollectorBase.edit_diff hier t d0).1 with _ | d2
    · simp only [hs] at hmem
      exact ih hmem
    · simp only [hs] at hmem
      by_cases hf : d2.changed_key ∈ fkeys
      · rw [if_pos hf] at hmem
        exact ih hmem
      · rw [if_neg hf] at hmem
        rcases List.mem_cons.mp hmem with heq | hmem2
        · subst heq
          obtain ⟨hd0, hk0⟩ := edit_diff_first_some hier t d0 d hs
          subst hd0
          exact ⟨hk0, hf⟩
        · exact ih hmem2

/-- A plain diff on key x, surviving an empty hierarchy and the denylist y. -/
def plainDiff : Diff :=
  { ticker := "ABC", date := "1", changed_key := "x",
    old := Value.vInt 1, new := Value.vInt 2, diff_type := "change", source := "s" }

/-- Witness for C6: a concrete surviving diff has a non-empty key outside the
denylist. -/
theorem edit_diffs_denylist_witness :
    plainDiff.changed_key ≠ "" ∧ plainDiff.changed_key ∉ ["y"] :=
  edit_diffs_denylist [] ["y"] "ABC" [plainDiff] plainDiff (by decide)


/-- Elementwise inequality as pandas computes it for the shifted comparison:
a missing value (NaN) compares unequal to everything, including another
missing value. -/
def valNe : Option Value → Option Value → Bool
  | some a, some b => decide (a ≠ b)
  | _, _ => true

/-- Elementwise equality of two optional cells, both-missing counting as
equal (used by the spec-side duplicate definition). -/
def optValEq : Option Value → Option Value → Bool
  | some a, some b => decide (a = b)
  | none, none => true
  | _, _ => false

/-- Cell access through an optional predecessor row. -/
def optLookup (prev : Option Record) (c : String) : Option Value :=
  match prev with
  | none => none
  | some p => p.lookup c

/-- One entry of the row mask `(history[cols].shift() != history[cols]).any(axis='columns')`:
whether the row differs from its predecessor (`none` for the first row) on
at least one compared column. -/
def keepRow (cols : List String) (prev : Option Record) (r : Record) : Bool :=
  cols.any (fun c => valNe (optLookup prev c) (r.lookup c))

/-- The row scan behind the consecutive-duplicate filter: each row is
compared against its original predecessor, kept rows are emitted in order. -/
def dupFilterGo (cols : List String) (prev : Option Record) : List Record → List Record
  | [] => []
  | r :: rest =>
    if keepRow cols prev r then r :: dupFilterGo cols (some r) rest
    else dupFilterGo cols (some r) rest

/-- The consecutive-duplicate filter of `get_sorted_history`
(`history.loc[(history[cols].shift() != history[cols]).any(axis='columns')]`). -/
def dupFilter (cols : List String) (rows : List Record) : List Record :=
  dupFilterGo cols none rows

/-- Key deduplication in first-seen order. -/
def dedupFirst : List String → List String
  | [] => []
  | k :: rest => k :: (dedupFirst rest).filter (fun c => c != k)

/-- Columns of a pandas frame built from a list of dicts: the union of the
row keys. -/
def frameCols (rows : List Record) : List String :=
  dedupFirst ((rows.map (fun r => r.map Prod.fst)).flatten)

/-- `history.columns.difference(['date', 'verifiedDate'])`: the columns the
duplicate filter compares. -/
def comparedCols (rows : List Record) : List String :=
  (frameCols rows).filter (fun c => c != "date" && c != "verifiedDate")

/-- The date cell of a row, used as the mongo ascending sort key. -/
def rowDate (r : Record) : String :=
  match r.lookup "date" with
  | some (Value.vStr s) => s
  | _ => ""

/-- Lexicographic order on character lists (string order, computable by the
kernel). -/
def charListLt : List Char → List Char → Bool
  | [], [] => false
  | [], _ :: _ => true
  | _ :: _, [] => false
  | a :: as, b :: bs =>
    if a < b then true
    else if b < a then false
    else charListLt as bs

/-- String order on the date keys. -/
def dateLt (a b : String) : Bool := charListLt a.data b.data

/-- Insert a row into a date-sorted list, after existing equal dates. -/
def insertByDate (r : Record) : List Record → List Record
  | [] => [r]
  | x :: xs => if dateLt (rowDate r) (rowDate x) then r :: x :: xs else x :: insertByDate r xs

/-- The mongo `sort('date', pymongo.ASCENDING)` on the matched rows. -/
def sortByDate : List Record → List Record
  | [] => []
  | r :: rest => insertByDate r (sortByDate rest)

namespace Alert
namespace CollectorBase

/-- Embedding of `CollectorBase.get_sorted_history` from
`src/alert/collector_base.py`: the entity's rows sorted ascending by date;
unless `duplicates` is requested, rows that do not differ from their
predecessor on any column other than the date columns are filtered out. -/
def get_sorted_history (collection : List Record) (ticker : String)
    (duplicates : Bool) : List Record :=
  let history := sortByDate (collection.filter
    (fun r => r.lookup "ticker" == some (Value.vStr ticker)))
  if duplicates then history
  else dupFilter (comparedCols history) history

end CollectorBase
end Alert

/-- Modelled from the spec: a row is a duplicate of its predecessor if every
compared field (all columns except the date columns) is equal. -/
def specRowEq (cols : List String) (p r : Record) : Bool :=
  cols.all (fun c => optValEq (p.lookup c) (r.lookup c))

/-- Modelled from the spec: drop every row equal to its immediate predecessor
on all compared fields. -/
def specHistoryViewGo (cols : List String) (prev : Record) : List Record → List Record
  | [] => []
  | r :: rest =>
    if specRowEq cols prev r then specHistoryViewGo cols r rest
    else r :: specHistoryViewGo cols r rest

/-- Modelled from the spec: the history view is the ordered snapshot sequence
with consecutive whole-row duplicates (date columns excluded from the
comparison) removed; the first row is always kept. -/
def specHistoryView (cols : List String) : List Record → List Record
  | [] => []
  | r :: rest => r :: specHistoryViewGo cols r rest

/-- The pandas NaN row shifted before the first row differs from anything. -/
theorem valNe_none_left (x : Option Value) : valNe none x = true := by
  cases x <;> rfl

/-- On two present cells the pandas mask is the negation of cell equality. -/
theorem valNe_eq_not_optValEq (a b : Value) :
    valNe (some a) (some b) = !optValEq (some a) (some b) := by
  by_cases hab : a = b
  · subst hab
    simp [valNe, optValEq]
  · simp [valNe, optValEq, hab]

/-- The first row of a non-empty compared-column frame is always kept. -/
theorem keepRow_none (cols : List String) (r : Record) :
    keepRow cols none r = !cols.isEmpty := by
  cases cols with
  | nil => rfl
  | cons c cs => simp [keepRow, optLookup, valNe_none_left]

/-- On fully-populated rows, the pandas any-column-differs mask is the
negation of whole-row equality on the compared columns. -/
theorem keepRow_some_eq (cols : List String) (p r : Record)
    (h : ∀ c ∈ cols, (List.lookup c p).isSome ∧ (List.lookup c r).isSome) :
    keepRow cols (some p) r = !(specRowEq cols p r) := by
  induction cols with
  | nil => rfl
  | cons c cs ih =>
    obtain ⟨h1, h2⟩ := h c (by simp)
    have ihh := ih (fun c2 hc2 => h c2 (by simp [hc2]))
    rcases hp : List.lookup c p with _ | a
    · rw [hp] at h1
      simp at h1
    · rcases hr : List.lookup c r with _ | b
      · rw [hr] at h2
        simp at h2
      · simp only [keepRow, specRowEq, List.any_cons, List.all_cons, Bool.not_and] at ihh ⊢
        simp only [optLookup] at ihh
        simp only [optLookup, hp, hr, valNe_eq_not_optValEq, ihh]

/-- The duplicate scan agrees with the spec-side scan on fully-populated
rows. -/
theorem dupFilterGo_eq_spec (cols : List String) (rows : List Record) :
    ∀ p : Record, (∀ c ∈ cols, (List.lookup c p).isSome) →
    (∀ r ∈ rows, ∀ c ∈ cols, (List.lookup c r).isSome) →
    dupFilterGo cols (some p) rows = specHistoryViewGo cols p rows := by
  induction rows with
  | nil =>
    intro p _ _
    rfl
  | cons r rest ih =>
    intro p hp hr
    have hr0 : ∀ c ∈ cols, (List.lookup c r).isSome := hr r (by simp)
    have hrest : ∀ r2 ∈ rest, ∀ c ∈ cols, (List.lookup c r2).isSome :=
      fun r2 h2 => hr r2 (by simp [h2])
    have hk : keepRow cols (some p) r = !(specRowEq cols p r) :=
      keepRow_some_eq cols p r (fun c hc => ⟨hp c hc, hr0 c hc⟩)
    simp only [dupFilterGo, specHistoryViewGo, hk]
    by_cases he : specRowEq cols p r
    · simp [he, ih r hr0 hrest]
    · simp [he, ih r hr0 hrest]

/-- The duplicate filter agrees with the spec-side history view when the
compared-column set is non-empty and rows are fully populated. -/
theorem dupFilter_eq_spec (cols : List String) (rows : List Record)
    (hcols : cols ≠ [])
    (hschema : ∀ r ∈ rows, ∀ c ∈ cols, (List.lookup c r).isSome) :
    dupFilter cols rows = specHistoryView cols rows := by
  cases rows with
  | nil => rfl
  | cons r rest =>
    have hkeep : keepRow cols none r = true := by
      rw [keepRow_none]
      cases cols with
      | nil => exact absurd rfl hcols
      | cons c cs => rfl
    have hr0 : ∀ c ∈ cols, (List.lookup c r).isSome := hschema r (by simp)
    have hrest : ∀ r2 ∈ rest, ∀ c ∈ cols, (List.lookup c r2).isSome :=
      fun r2 h2 => hschema r2 (by simp [h2])
    simp only [dupFilter, dupFilterGo, specHistoryView, hkeep, if_true]
    exact congrArg (r :: ·) (dupFilterGo_eq_spec cols rest r hr0 hrest)

/-- Claim C5: the history view (`get_sorted_history` without duplicates) is
the date-ordered snapshot sequence of the entity with every row removed that
equals its immediate predecessor on all columns except the date columns —
provided there is at least one compared column (always true in practice,
every stored row carries the ticker column) and rows are fully populated. -/
theorem get_sorted_history_collapses (collection : List Record) (ticker : String)
    (hcols : comparedCols (Alert.CollectorBase.get_sorted_history collection ticker true) ≠ [])
    (hschema : ∀ r ∈ Alert.CollectorBase.get_sorted_history collection ticker true,
      ∀ c ∈ comparedCols (Alert.CollectorBase.get_sorted_history collection ticker true),
      (List.lookup c r).isSome) :
    Alert.CollectorBase.get_sorted_history collection ticker false =
      specHistoryView
        (comparedCols (Alert.CollectorBase.get_sorted_history collection ticker true))
        (Alert.CollectorBase.get_sorted_history collection ticker true) :=
  dupFilter_eq_spec _ _ hcols hschema

/-- The duplicate-collapse example: three snapshots of one entity where the
second equals the first on every non-date column. -/
def historyExample : List Record :=
  [[("ticker", Value.vStr "ABC"), ("x", Value.vInt 1), ("date", Value.vStr "1")],
   [("ticker", Value.vStr "ABC"), ("x", Value.vInt 1), ("date", Value.vStr "2")],
   [("ticker", Value.vStr "ABC"), ("x", Value.vInt 2), ("date", Value.vStr "3")]]

/-- Witness for C5: the history view over `[x:1 t:1, x:1 t:2, x:2 t:3]`
collapses to `[x:1 t:1, x:2 t:3]`. -/
theorem get_sorted_history_collapses_witness :
    Alert.CollectorBase.get_sorted_history historyExample "ABC" false =
      [[("ticker", Value.vStr "ABC"), ("x", Value.vInt 1), ("date", Value.vStr "1")],
       [("ticker", Value.vStr "ABC"), ("x", Value.vInt 2), ("date", Value.vStr "3")]] := by
  have h := get_sorted_history_collapses historyExample "ABC" (by decide) (by decide)
  rw [h]
  rfl

end StockInfo
